import Mathlib

/-!
Shallow embedding of the birdhouse capture loop (`src/birdhouse/capture.py`
together with the settings surface of `src/birdhouse/config.py`).

External effects (camera, filesystem, subprocess output, clock) are supplied
per loop iteration through an environment record; the pure logic of the loop
body is translated function by function from the source.
-/

namespace Birdhouse

/-- Settings snapshot returned by `load_settings` (config.py). -/
structure Settings where
  capture_interval : Nat
  resolution_width : Nat
  resolution_height : Nat
  jpeg_quality : Nat
  upload_enabled : Bool
  upload_path : String
  max_local_photos : Nat
deriving DecidableEq, Repr

/-- A frame: flattened grayscale pixel grid (numpy array of intensities). -/
abbrev Frame := List Int

/-- Percentage of pixels that must differ to count as motion (source: 3.0). -/
def MOTION_THRESHOLD_PCT : Nat := 3

/-- Per-pixel intensity difference to count as changed. -/
def PIXEL_DIFF_THRESHOLD : Nat := 30

/-- How many rapid-fire captures after motion is detected. -/
def MOTION_BURST_COUNT : Nat := 15

/-- Interval during motion burst (seconds). -/
def MOTION_BURST_INTERVAL : Nat := 10

/-- detect_motion (capture.py, lines 119-140): compare the current photo to the
retained previous frame.  The global `_prev_frame` is passed and returned
explicitly.  Returns the motion flag and the new previous-frame buffer. -/
def detect_motion (prev_frame : Option Frame) (current : Frame) :
    Bool × Option Frame :=
  match prev_frame with
  | none => (false, some current)
  | some prev =>
    let diff := List.zipWith (fun a b => (a - b).natAbs) current prev
    let changed_pixels := (diff.filter (fun d => PIXEL_DIFF_THRESHOLD < d)).length
    let total_pixels := diff.length
    (decide (MOTION_THRESHOLD_PCT * total_pixels < changed_pixels * 100), some current)

/-- Character-level suffix test (Python str.endswith).  Implemented over the
character list so that it evaluates by kernel reduction. -/
def beginsWith : List Char → List Char → Bool
  | [], _ => true
  | _ :: _, [] => false
  | p :: ps, x :: xs => (p = x) && beginsWith ps xs

/-- Python str.endswith. -/
def pyEndsWith (s suf : String) : Bool := beginsWith suf.data.reverse s.data.reverse

/-- Python str.strip() on a character list. -/
def pyStripL (l : List Char) : List Char :=
  ((l.dropWhile Char.isWhitespace).reverse.dropWhile Char.isWhitespace).reverse

/-- Python str.strip(). -/
def pyStrip (s : String) : String := String.mk (pyStripL s.data)

/-- Fuel-driven splitter on a (non-empty) separator substring. -/
def splitSubAux (sep : List Char) : Nat → List Char → List Char → List (List Char)
  | 0, acc, l => [acc.reverse ++ l]
  | _ + 1, acc, [] => [acc.reverse]
  | fuel + 1, acc, x :: xs =>
    if beginsWith sep (x :: xs) then
      acc.reverse :: splitSubAux sep fuel [] (List.drop sep.length (x :: xs))
    else splitSubAux sep fuel (x :: acc) xs

/-- Python str.split(sep) for a non-empty separator string. -/
def pySplitSub (sep s : String) : List String :=
  (splitSubAux sep.data (s.data.length + 1) [] s.data).map String.mk

/-- Python str.split() (no argument): split on whitespace runs. -/
def splitWsAux : List Char → List Char → List (List Char)
  | acc, [] => [acc.reverse]
  | acc, x :: xs =>
    if x.isWhitespace then acc.reverse :: splitWsAux [] xs
    else splitWsAux (x :: acc) xs

/-- Python str.split() with no argument: split on whitespace, drop empties. -/
def pySplit (s : String) : List String :=
  ((splitWsAux [] s.data).filter (fun t => !t.isEmpty)).map String.mk

/-- Digit-string value used by pyToInt. -/
def digitsVal : List Char → Option Nat → Option Nat
  | [], acc => acc
  | c :: cs, acc =>
    if c.isDigit then
      digitsVal cs (some ((acc.getD 0) * 10 + (c.toNat - 48)))
    else none

/-- Python int(str): strip whitespace, optional sign, decimal digits;
none when the text is not a valid integer literal (ValueError). -/
def pyToInt (s : String) : Option Int :=
  match pyStripL s.data with
  | '-' :: ds => (digitsVal ds none).map (fun n => -(n : Int))
  | '+' :: ds => (digitsVal ds none).map (fun n => (n : Int))
  | ds => (digitsVal ds none).map (fun n => (n : Int))

/-- Python str.replace(old, new) for a non-empty old. -/
def pyReplace (s old new : String) : String :=
  String.mk (List.intercalate new.data ((splitSubAux old.data (s.data.length + 1) [] s.data)))

/-- A file in the local photos directory: name and modification time. -/
structure Photo where
  name : String
  mtime : Nat
deriving DecidableEq, Repr

/-- Ordering key used by `cleanup_old_photos`: modification time. -/
def mtimeLe (a b : Photo) : Prop := a.mtime ≤ b.mtime

instance : DecidableRel mtimeLe := fun a b => Nat.decLe a.mtime b.mtime

instance : IsTotal Photo mtimeLe := ⟨fun a b => Nat.le_total a.mtime b.mtime⟩

instance : IsTrans Photo mtimeLe := ⟨fun _ _ _ hab hbc => Nat.le_trans hab hbc⟩

/-- sorted(..., key=os.path.getmtime) on the photo listing. -/
def sortedByMtime (l : List Photo) : List Photo := List.insertionSort mtimeLe l

/-- Errors that escape the loop body of `run` (unhandled Python exceptions). -/
inductive Err where
  | settingsError
  | removeError
  | retentionError
deriving DecidableEq, Repr

/-- While-loop of cleanup_old_photos (capture.py, lines 269-272): pop the
oldest photo and delete it while the count exceeds `max_keep`.  `remove_ok`
tells whether a given `os.remove` succeeds; a failing remove raises.
Returns (deleted files, remaining files) on success. -/
def cleanup_run (remove_ok : String → Bool) (max_keep : Nat) :
    List Photo → Except Err (List Photo × List Photo)
  | [] => .ok ([], [])
  | p :: ps =>
    if max_keep < ps.length + 1 then
      if remove_ok p.name then
        match cleanup_run remove_ok max_keep ps with
        | .ok (deleted, kept) => .ok (p :: deleted, kept)
        | .error e => .error e
      else .error .retentionError
    else .ok ([], p :: ps)

/-- cleanup_old_photos (capture.py, lines 261-272): list the directory, keep
the `.jpg` files sorted by mtime ascending, delete from the front until the
count is at or below `max_keep`.  Returns (deleted files, new directory). -/
def cleanup_old_photos (remove_ok : String → Bool) (max_keep : Nat)
    (dir : List Photo) : Except Err (List Photo × List Photo) :=
  let jpgs := dir.filter (fun p => pyEndsWith p.name ".jpg")
  let others := dir.filter (fun p => !pyEndsWith p.name ".jpg")
  match cleanup_run remove_ok max_keep (sortedByMtime jpgs) with
  | .ok (deleted, kept) => .ok (deleted, others ++ kept)
  | .error e => .error e

/-- Outcomes of the external queries made by gather_pi_stats.  `none` means
the query raised an exception; `some` carries the raw text obtained. -/
structure StatsEnv where
  timestamp : String
  temp_out : Option String
  uptime_out : Option String
  df_out : Option String
  iwconfig_out : Option String
deriving DecidableEq, Repr

/-- The stats dictionary built by gather_pi_stats.  `none` in an optional
field means the key was never inserted into the dictionary. -/
structure PiStats where
  timestamp : String
  motion_events_today : Nat
  cpu_temp : Option String
  uptime : Option String
  disk_free : Option String
  disk_pct : Option String
  wifi_signal : Option String
deriving DecidableEq, Repr

/-- Substring test (Python `in` on strings). -/
def containsSub (s pat : String) : Bool := 1 < (pySplitSub pat s).length

/-- Formatting of the CPU temperature reading (f-string with one decimal). -/
def format_cpu_temp (t : Int) : String :=
  let tenths := (t * 10 + 500) / 1000
  toString (tenths / 10) ++ "." ++ toString (tenths % 10) ++ " C"

/-- gather_pi_stats (capture.py, lines 194-236).  Each metric is wrapped in
its own try/except; an exception yields the "N/A" placeholder.  The disk
block inserts its two keys only when `df` output has at least two lines. -/
def gather_pi_stats (env : StatsEnv) (motion_today : Nat) : PiStats :=
  let cpu : Option String :=
    match env.temp_out with
    | none => some "N/A"
    | some s =>
      match pyToInt s with
      | none => some "N/A"
      | some t => some (format_cpu_temp t)
  let up : Option String :=
    match env.uptime_out with
    | none => some "N/A"
    | some s => some (pyReplace (pyStrip s) "up " "")
  let disk : Option String × Option String :=
    match env.df_out with
    | none => (some "N/A", some "N/A")
    | some out =>
      let lines := pySplitSub "\n" (pyStrip out)
      if 2 ≤ lines.length then
        match pySplit (lines.getD 1 "") with
        | p0 :: p1 :: _ => (some p0, some p1)
        | _ => (some "N/A", some "N/A")
      else (none, none)
  let wifi : Option String :=
    match env.iwconfig_out with
    | none => some "N/A"
    | some out =>
      match (pySplitSub "\n" out).find? (fun l => containsSub l "Signal level") with
      | some l => some (pyStrip ((pySplitSub "Signal level=" l).getLastD ""))
      | none => some "N/A"
  { timestamp := env.timestamp,
    motion_events_today := motion_today,
    cpu_temp := cpu,
    uptime := up,
    disk_free := disk.1,
    disk_pct := disk.2,
    wifi_signal := wifi }

/-- Outcomes of the filesystem operations attempted by upload_photo. -/
structure UploadEnv where
  dest_present : Bool
  copy_ok : Bool
  stats_write_ok : Bool
  statsEnv : StatsEnv
deriving Repr

/-- Observable result of upload_photo: the returned boolean, whether the
photo was copied to the destination, and the stats file written there. -/
structure UploadResult where
  success : Bool
  photoCopied : Bool
  statsWritten : Option PiStats
deriving DecidableEq, Repr

/-- upload_photo (capture.py, lines 239-258): bail out when the destination
directory is absent; copy the photo; gather stats and write pi_stats.json;
an OSError anywhere in the try block is caught and yields False. -/
def upload_photo (env : UploadEnv) (motion_today : Nat) : UploadResult :=
  if !env.dest_present then
    { success := false, photoCopied := false, statsWritten := none }
  else if !env.copy_ok then
    { success := false, photoCopied := false, statsWritten := none }
  else if !env.stats_write_ok then
    { success := false, photoCopied := true, statsWritten := none }
  else
    { success := true, photoCopied := true,
      statsWritten := some (gather_pi_stats env.statsEnv motion_today) }

/-- State carried across iterations of `run` (capture.py, lines 281-283),
plus the contents of the local photos directory. -/
structure LoopState where
  motion_burst_remaining : Nat
  motion_count_today : Nat
  current_day : Nat
  prev_frame : Option Frame
  photos : List Photo
deriving DecidableEq, Repr

/-- External world of one loop iteration: whether load_settings succeeds and
what it returns, today's date, the captured frame (none = take_photo failed),
the timestamp/mtime of the new file, upload outcomes, and which `os.remove`
calls succeed. -/
structure Env where
  settings_ok : Bool
  settings : Settings
  today : Nat
  capture : Option Frame
  timestamp : String
  mtime : Nat
  upload : UploadEnv
  remove_ok : String → Bool

/-- Observable per-iteration outputs of the loop body. -/
structure Output where
  interval : Nat
  motion_tag : Bool
  filepath : Option String
  motion : Bool
  uploaded : Bool
  upload_result : Option UploadResult
  deleted : List Photo
  after_upload_photos : List Photo
deriving DecidableEq, Repr

/-- Adaptive interval block (capture.py, lines 320-326): returns the new
burst counter and the interval slept this iteration. -/
def adaptive_interval (settings : Settings) (burst0 : Nat) : Nat × Nat :=
  if 0 < burst0 then (burst0 - 1, MOTION_BURST_INTERVAL)
  else (0, settings.capture_interval)

/-- Upload section of the loop body (capture.py, lines 312-316): attempt the
upload when enabled; on success remove the local copy (an exception from
`os.remove` escapes).  Returns (uploaded, upload result, directory state). -/
def upload_block (env : Env) (motion_count1 : Nat) (newPhoto : Photo)
    (dir1 : List Photo) : Except Err (Bool × Option UploadResult × List Photo) :=
  if env.settings.upload_enabled then
    let res := upload_photo env.upload motion_count1
    if res.success then
      if env.remove_ok newPhoto.name then
        .ok (true, some res, dir1.filter (fun p => p ≠ newPhoto))
      else .error .removeError
    else .ok (false, some res, dir1)
  else .ok (false, none, dir1)

/-- One iteration of the while-loop body of `run` (capture.py, lines
285-329).  An `Err` result is an exception escaping the loop body. -/
def step (env : Env) (st : LoopState) : Except Err (LoopState × Output) :=
  if !env.settings_ok then .error .settingsError else
  let settings := env.settings
  let motion_count0 : Nat :=
    if env.today ≠ st.current_day then 0 else st.motion_count_today
  let current_day1 : Nat := env.today
  let is_burst : Bool := decide (0 < st.motion_burst_remaining)
  let motion_tag : Bool := is_burst
  match env.capture with
  | none =>
    let burst1 := adaptive_interval settings st.motion_burst_remaining
    .ok ({ st with motion_count_today := motion_count0,
                   current_day := current_day1,
                   motion_burst_remaining := burst1.1 },
         { interval := burst1.2, motion_tag := motion_tag, filepath := none,
           motion := false, uploaded := false, upload_result := none,
           deleted := [], after_upload_photos := st.photos })
  | some frame =>
    let fname := (if motion_tag then "motion" else "bird") ++ "_" ++ env.timestamp ++ ".jpg"
    let newPhoto : Photo := { name := fname, mtime := env.mtime }
    let dir1 := st.photos ++ [newPhoto]
    let dm := detect_motion st.prev_frame frame
    let motion := dm.1
    let prev1 := dm.2
    let triggered : Bool := motion && !is_burst
    let motion_count1 : Nat := if triggered then motion_count0 + 1 else motion_count0
    let burst0 : Nat := if triggered then MOTION_BURST_COUNT else st.motion_burst_remaining
    match upload_block env motion_count1 newPhoto dir1 with
    | .error e => .error e
    | .ok (uploaded, upres, dir2) =>
      match cleanup_old_photos env.remove_ok settings.max_local_photos dir2 with
      | .error e => .error e
      | .ok (deleted, dir3) =>
        let burst1 := adaptive_interval settings burst0
        .ok ({ motion_burst_remaining := burst1.1,
               motion_count_today := motion_count1,
               current_day := current_day1,
               prev_frame := prev1,
               photos := dir3 },
             { interval := burst1.2, motion_tag := motion_tag,
               filepath := some fname, motion := motion, uploaded := uploaded,
               upload_result := upres, deleted := deleted,
               after_upload_photos := dir2 })

/-- Iterate the loop body: result of iteration `n` (0-indexed) starting from
`st`, drawing iteration `i`'s environment from `envs i`. -/
def iterStep (envs : Nat → Env) (st : LoopState) : Nat → Except Err (LoopState × Output)
  | 0 => step (envs 0) st
  | n + 1 =>
    match iterStep envs st n with
    | .ok (st', _) => step (envs (n + 1)) st'
    | .error e => .error e

/-- Run the loop body over a finite list of environments, collecting the
per-iteration outputs. -/
def runList (st : LoopState) : List Env → Except Err (LoopState × List Output)
  | [] => .ok (st, [])
  | e :: es =>
    match step e st with
    | .ok (st', out) =>
      match runList st' es with
      | .ok (st'', outs) => .ok (st'', out :: outs)
      | .error err => .error err
    | .error err => .error err

/-- Initial loop state of `run` (capture.py, lines 281-283) together with the
pre-existing contents of the photos directory. -/
def initState (day : Nat) (photos : List Photo) : LoopState :=
  { motion_burst_remaining := 0, motion_count_today := 0, current_day := day,
    prev_frame := none, photos := photos }

/-- Filename produced by take_photo this iteration (capture.py, lines 148-152). -/
def photoName (st : LoopState) (env : Env) : String :=
  (if decide (0 < st.motion_burst_remaining) then "motion" else "bird")
    ++ "_" ++ env.timestamp ++ ".jpg"

/-- Whether this iteration starts a new burst: motion reported and not
already bursting (capture.py, line 307). -/
def stepTriggered (st : LoopState) (frame : Frame) : Bool :=
  (detect_motion st.prev_frame frame).1 && !(decide (0 < st.motion_burst_remaining))

/-- Value of the daily motion counter after the capture section. -/
def stepCount (env : Env) (st : LoopState) (frame : Frame) : Nat :=
  if stepTriggered st frame then
    (if env.today ≠ st.current_day then 0 else st.motion_count_today) + 1
  else (if env.today ≠ st.current_day then 0 else st.motion_count_today)

/-- Burst counter entering the adaptive-interval block. -/
def stepBurst0 (st : LoopState) (frame : Frame) : Nat :=
  if stepTriggered st frame then MOTION_BURST_COUNT else st.motion_burst_remaining

/-- Failure of load_settings escapes the loop body. -/
theorem step_settings_fail (env : Env) (st : LoopState)
    (hs : env.settings_ok = false) : step env st = .error .settingsError := by
  unfold step
  simp [hs]

/-- Characterization of a successful iteration whose capture failed:
no motion check, no upload, no retention pass; only the daily-reset and
adaptive-interval sections run. -/
theorem step_none_parts (env : Env) (st st' : LoopState) (out : Output)
    (hok : step env st = .ok (st', out)) (hc : env.capture = none) :
    st'.photos = st.photos ∧ out.motion = false ∧ out.filepath = none
      ∧ out.uploaded = false ∧ out.deleted = []
      ∧ out.after_upload_photos = st.photos
      ∧ st'.prev_frame = st.prev_frame
      ∧ st'.current_day = env.today
      ∧ st'.motion_count_today =
          (if env.today ≠ st.current_day then 0 else st.motion_count_today)
      ∧ st'.motion_burst_remaining =
          (adaptive_interval env.settings st.motion_burst_remaining).1
      ∧ out.interval = (adaptive_interval env.settings st.motion_burst_remaining).2
      ∧ out.motion_tag = decide (0 < st.motion_burst_remaining) := by
  unfold step at hok
  cases hs : env.settings_ok with
  | false => rw [hs] at hok; simp at hok
  | true =>
    rw [hs, hc] at hok
    simp only [Bool.not_true, Bool.false_eq_true, if_false, Except.ok.injEq,
      Prod.mk.injEq] at hok
    obtain ⟨hst, hout⟩ := hok
    subst hst; subst hout
    exact ⟨rfl, rfl, rfl, rfl, rfl, rfl, rfl, rfl, rfl, rfl, rfl, rfl⟩

/-- Characterization of a successful iteration whose capture succeeded. -/
theorem step_some_parts (env : Env) (st st' : LoopState) (out : Output) (frame : Frame)
    (hok : step env st = .ok (st', out)) (hc : env.capture = some frame) :
    out.motion_tag = decide (0 < st.motion_burst_remaining)
      ∧ out.motion = (detect_motion st.prev_frame frame).1
      ∧ st'.prev_frame = (detect_motion st.prev_frame frame).2
      ∧ out.filepath = some (photoName st env)
      ∧ st'.current_day = env.today
      ∧ st'.motion_count_today = stepCount env st frame
      ∧ st'.motion_burst_remaining =
          (adaptive_interval env.settings (stepBurst0 st frame)).1
      ∧ out.interval = (adaptive_interval env.settings (stepBurst0 st frame)).2
      ∧ upload_block env (stepCount env st frame)
          (Photo.mk (photoName st env) env.mtime)
          (st.photos ++ [Photo.mk (photoName st env) env.mtime])
          = .ok (out.uploaded, out.upload_result, out.after_upload_photos)
      ∧ cleanup_old_photos env.remove_ok env.settings.max_local_photos
          out.after_upload_photos = .ok (out.deleted, st'.photos) := by
  unfold step at hok
  cases hs : env.settings_ok with
  | false => rw [hs] at hok; simp at hok
  | true =>
    rw [hs, hc] at hok
    simp only [Bool.not_true, Bool.false_eq_true, if_false] at hok
    split at hok
    · simp at hok
    next uploaded upres dir2 hup =>
      split at hok
      · simp at hok
      next deleted dir3 hclean =>
        simp only [Except.ok.injEq, Prod.mk.injEq] at hok
        obtain ⟨hst, hout⟩ := hok
        subst hst; subst hout
        exact ⟨rfl, rfl, rfl, rfl, rfl, rfl, rfl, rfl, hup, hclean⟩

/-- Shape of a successful retention pass: the deleted files are an initial
segment of the mtime-sorted listing and the survivors number at most
`max_keep`. -/
theorem cleanup_run_ok_shape (rok : String → Bool) (k : Nat) :
    ∀ (l del kept : List Photo), cleanup_run rok k l = .ok (del, kept) →
      ∃ m, del = l.take m ∧ kept = l.drop m ∧ kept.length ≤ k := by
  intro l
  induction l with
  | nil =>
    intro del kept h
    simp only [cleanup_run, Except.ok.injEq, Prod.mk.injEq] at h
    obtain ⟨h1, h2⟩ := h
    subst h1; subst h2
    exact ⟨0, by simp⟩
  | cons p ps ih =>
    intro del kept h
    unfold cleanup_run at h
    split at h
    · split at h
      · split at h
        next del' kept' hrec =>
          simp only [Except.ok.injEq, Prod.mk.injEq] at h
          obtain ⟨hdel, hkept⟩ := h
          subst hdel; subst hkept
          obtain ⟨m, hd, hk, hlen⟩ := ih del' kept' hrec
          subst hd; subst hk
          exact ⟨m + 1, by simp, by simp, hlen⟩
        next e herr => simp at h
      · simp at h
    · simp only [Except.ok.injEq, Prod.mk.injEq] at h
      obtain ⟨hdel, hkept⟩ := h
      subst hdel; subst hkept
      refine ⟨0, by simp, by simp, ?_⟩
      simp only [List.length_cons]
      omega

theorem cleanup_run_isOk (rok : String → Bool) (k : Nat) :
    ∀ l : List Photo, (∀ p ∈ l, rok p.name = true) →
      ∃ r, cleanup_run rok k l = .ok r := by
  intro l
  induction l with
  | nil => intro _; exact ⟨([], []), rfl⟩
  | cons p ps ih =>
    intro hall
    obtain ⟨⟨del, kept⟩, hr⟩ := ih (fun q hq => hall q (List.mem_cons_of_mem p hq))
    unfold cleanup_run
    by_cases hk : k < ps.length + 1
    · simp only [if_pos hk, hall p (List.mem_cons_self p ps), if_true, hr]
      exact ⟨(p :: del, kept), rfl⟩
    · rw [if_neg hk]
      exact ⟨([], p :: ps), rfl⟩

theorem cleanup_old_photos_parts (rok : String → Bool) (mx : Nat)
    (dir del dir' : List Photo)
    (h : cleanup_old_photos rok mx dir = .ok (del, dir')) :
    ∃ m,
      del = (sortedByMtime (dir.filter (fun p => pyEndsWith p.name ".jpg"))).take m
      ∧ dir' = dir.filter (fun p => !pyEndsWith p.name ".jpg")
          ++ (sortedByMtime (dir.filter (fun p => pyEndsWith p.name ".jpg"))).drop m
      ∧ ((sortedByMtime (dir.filter (fun p => pyEndsWith p.name ".jpg"))).drop m).length ≤ mx := by
  unfold cleanup_old_photos at h
  dsimp only at h
  split at h
  next deleted kept hrun =>
    simp only [Except.ok.injEq, Prod.mk.injEq] at h
    obtain ⟨h1, h2⟩ := h
    subst h1; subst h2
    obtain ⟨m, hd, hk, hlen⟩ := cleanup_run_ok_shape rok mx _ deleted kept hrun
    subst hd; subst hk
    exact ⟨m, rfl, rfl, hlen⟩
  next e herr => simp at h

theorem cleanup_old_photos_count (rok : String → Bool) (mx : Nat)
    (dir del dir' : List Photo)
    (h : cleanup_old_photos rok mx dir = .ok (del, dir')) :
    (dir'.filter (fun p => pyEndsWith p.name ".jpg")).length ≤ mx := by
  obtain ⟨m, _, hdir, hlen⟩ := cleanup_old_photos_parts rok mx dir del dir' h
  subst hdir
  rw [List.filter_append]
  have h1 : (dir.filter (fun p => !pyEndsWith p.name ".jpg")).filter
      (fun p => pyEndsWith p.name ".jpg") = [] := by
    refine List.filter_eq_nil_iff.mpr ?_
    intro a ha hpa
    have := (List.mem_filter.mp ha).2
    simp [hpa] at this
  have h2 : ((sortedByMtime (dir.filter (fun p => pyEndsWith p.name ".jpg"))).drop m).filter
      (fun p => pyEndsWith p.name ".jpg")
      = (sortedByMtime (dir.filter (fun p => pyEndsWith p.name ".jpg"))).drop m := by
    refine List.filter_eq_self.mpr ?_
    intro a ha
    have ha2 : a ∈ sortedByMtime (dir.filter (fun p => pyEndsWith p.name ".jpg")) :=
      List.mem_of_mem_drop ha
    have ha3 : a ∈ dir.filter (fun p => pyEndsWith p.name ".jpg") := by
      simpa [sortedByMtime] using ha2
    exact (List.mem_filter.mp ha3).2
  rw [h1, h2]
  simpa using hlen

theorem cleanup_old_photos_oldest (rok : String → Bool) (mx : Nat)
    (dir del dir' : List Photo)
    (h : cleanup_old_photos rok mx dir = .ok (del, dir')) :
    ∀ d ∈ del, ∀ q ∈ dir', pyEndsWith q.name ".jpg" = true → d.mtime ≤ q.mtime := by
  obtain ⟨m, hdel, hdir, _⟩ := cleanup_old_photos_parts rok mx dir del dir' h
  subst hdel; subst hdir
  intro d hd q hq hjpg
  have hsorted : List.Sorted mtimeLe
      (sortedByMtime (dir.filter (fun p => pyEndsWith p.name ".jpg"))) :=
    List.sorted_insertionSort mtimeLe _
  have hpw : List.Pairwise mtimeLe
      ((sortedByMtime (dir.filter (fun p => pyEndsWith p.name ".jpg"))).take m
        ++ (sortedByMtime (dir.filter (fun p => pyEndsWith p.name ".jpg"))).drop m) := by
    rw [List.take_append_drop]
    exact hsorted
  rcases List.mem_append.mp hq with hq1 | hq2
  · have := (List.mem_filter.mp hq1).2
    simp [hjpg] at this
  · exact (List.pairwise_append.mp hpw).2.2 d hd q hq2

theorem cleanup_old_photos_subset (rok : String → Bool) (mx : Nat)
    (dir del dir' : List Photo)
    (h : cleanup_old_photos rok mx dir = .ok (del, dir')) :
    ∀ x ∈ dir', x ∈ dir := by
  obtain ⟨m, _, hdir, _⟩ := cleanup_old_photos_parts rok mx dir del dir' h
  subst hdir
  intro x hx
  rcases List.mem_append.mp hx with hx1 | hx2
  · exact List.filter_subset' dir hx1
  · have hx3 : x ∈ sortedByMtime (dir.filter (fun p => pyEndsWith p.name ".jpg")) :=
      List.mem_of_mem_drop hx2
    have hx4 : x ∈ dir.filter (fun p => pyEndsWith p.name ".jpg") := by
      simpa [sortedByMtime] using hx3
    exact List.filter_subset' dir hx4

theorem cleanup_old_photos_isOk (rok : String → Bool) (mx : Nat) (dir : List Photo)
    (hall : ∀ p ∈ dir, rok p.name = true) :
    ∃ r, cleanup_old_photos rok mx dir = .ok r := by
  unfold cleanup_old_photos
  dsimp only
  obtain ⟨⟨del, kept⟩, hr⟩ := cleanup_run_isOk rok mx
    (sortedByMtime (dir.filter (fun p => pyEndsWith p.name ".jpg")))
    (by
      intro p hp
      have hp2 : p ∈ dir.filter (fun q => pyEndsWith q.name ".jpg") := by
        simpa [sortedByMtime] using hp
      exact hall p (List.filter_subset' dir hp2))
  rw [hr]
  exact ⟨(del, dir.filter (fun p => !pyEndsWith p.name ".jpg") ++ kept), rfl⟩

theorem upload_block_ne_error (env : Env) (c : Nat) (p : Photo) (d : List Photo)
    (e : Err) (hr : env.remove_ok p.name = true) :
    upload_block env c p d ≠ .error e := by
  intro hcon
  unfold upload_block at hcon
  dsimp only at hcon
  split at hcon <;> simp_all
  split at hcon <;> simp_all

theorem cleanup_old_photos_ne_error (rok : String → Bool) (mx : Nat)
    (dir : List Photo) (e : Err) (hall : ∀ p ∈ dir, rok p.name = true) :
    cleanup_old_photos rok mx dir ≠ .error e := by
  intro hcon
  obtain ⟨r, h⟩ := cleanup_old_photos_isOk rok mx dir hall
  rw [h] at hcon
  simp at hcon

theorem step_isOk (env : Env) (st : LoopState)
    (hs : env.settings_ok = true) (hr : ∀ n, env.remove_ok n = true) :
    (step env st).isOk = true := by
  unfold step
  simp only [hs, Bool.not_true, Bool.false_eq_true, if_false]
  cases hc : env.capture with
  | none => rfl
  | some frame =>
    dsimp only
    split
    next e hub =>
      exact absurd hub (upload_block_ne_error env _ _ _ e (hr _))
    next uploaded upres dir2 hub =>
      split
      next e hcl =>
        exact absurd hcl (cleanup_old_photos_ne_error env.remove_ok
          env.settings.max_local_photos dir2 e (fun p _ => hr p.name))
      next del dir3 hcl => rfl

theorem step_burst_decrement (env : Env) (st st' : LoopState) (out : Output)
    (hok : step env st = .ok (st', out)) (hb : 0 < st.motion_burst_remaining) :
    st'.motion_burst_remaining = st.motion_burst_remaining - 1
      ∧ out.motion_tag = true ∧ out.interval = MOTION_BURST_INTERVAL := by
  cases hc : env.capture with
  | none =>
    obtain ⟨_, _, _, _, _, _, _, _, _, hburst, hint, htag⟩ :=
      step_none_parts env st st' out hok hc
    refine ⟨?_, ?_, ?_⟩
    · rw [hburst]; simp [adaptive_interval, hb]
    · rw [htag]; simp [hb]
    · rw [hint]; simp [adaptive_interval, hb]
  | some frame =>
    obtain ⟨htag, hm, hprev, hfp, hday, hcount, hburst, hint, hub, hcl⟩ :=
      step_some_parts env st st' out frame hok hc
    have htrig : stepTriggered st frame = false := by
      unfold stepTriggered; simp [hb]
    have hb0 : stepBurst0 st frame = st.motion_burst_remaining := by
      unfold stepBurst0; rw [htrig]; simp
    refine ⟨?_, ?_, ?_⟩
    · rw [hburst, hb0]; simp [adaptive_interval, hb]
    · rw [htag]; simp [hb]
    · rw [hint, hb0]; simp [adaptive_interval, hb]

theorem step_trigger_parts (env : Env) (st st' : LoopState) (out : Output)
    (hok : step env st = .ok (st', out)) (hb0 : st.motion_burst_remaining = 0)
    (hm : out.motion = true) :
    st'.motion_burst_remaining = MOTION_BURST_COUNT - 1
      ∧ out.interval = MOTION_BURST_INTERVAL
      ∧ out.motion_tag = false
      ∧ st'.motion_count_today =
          (if env.today ≠ st.current_day then 0 else st.motion_count_today) + 1 := by
  cases hc : env.capture with
  | none =>
    obtain ⟨_, hmf, _⟩ := step_none_parts env st st' out hok hc
    rw [hmf] at hm; cases hm
  | some frame =>
    obtain ⟨htag, hmot, hprev, hfp, hday, hcount, hburst, hint, hub, hcl⟩ :=
      step_some_parts env st st' out frame hok hc
    have hdm : (detect_motion st.prev_frame frame).1 = true := by
      rw [← hmot]; exact hm
    have htrig : stepTriggered st frame = true := by
      unfold stepTriggered; simp [hdm, hb0]
    have hbv : stepBurst0 st frame = MOTION_BURST_COUNT := by
      unfold stepBurst0; rw [htrig]; simp
    refine ⟨?_, ?_, ?_, ?_⟩
    · rw [hburst, hbv]; simp [adaptive_interval, MOTION_BURST_COUNT]
    · rw [hint, hbv]; simp [adaptive_interval, MOTION_BURST_COUNT]
    · rw [htag]; simp [hb0]
    · rw [hcount]; unfold stepCount; rw [htrig]; simp

theorem step_normal_still (env : Env) (st st' : LoopState) (out : Output)
    (hok : step env st = .ok (st', out)) (hb0 : st.motion_burst_remaining = 0)
    (hm : out.motion = false) :
    st'.motion_burst_remaining = 0
      ∧ out.interval = env.settings.capture_interval
      ∧ out.motion_tag = false := by
  cases hc : env.capture with
  | none =>
    obtain ⟨_, _, _, _, _, _, _, _, _, hburst, hint, htag⟩ :=
      step_none_parts env st st' out hok hc
    refine ⟨?_, ?_, ?_⟩
    · rw [hburst, hb0]; simp [adaptive_interval]
    · rw [hint, hb0]; simp [adaptive_interval]
    · rw [htag]; simp [hb0]
  | some frame =>
    obtain ⟨htag, hmot, hprev, hfp, hday, hcount, hburst, hint, hub, hcl⟩ :=
      step_some_parts env st st' out frame hok hc
    have hdm : (detect_motion st.prev_frame frame).1 = false := by
      rw [← hmot]; exact hm
    have htrig : stepTriggered st frame = false := by
      unfold stepTriggered; simp [hdm]
    have hbv : stepBurst0 st frame = 0 := by
      unfold stepBurst0; rw [htrig]; simp [hb0]
    refine ⟨?_, ?_, ?_⟩
    · rw [hburst, hbv]; simp [adaptive_interval]
    · rw [hint, hbv]; simp [adaptive_interval]
    · rw [htag]; simp [hb0]

theorem step_day_counter (env : Env) (st st' : LoopState) (out : Output)
    (hok : step env st = .ok (st', out)) :
    st'.current_day = env.today
      ∧ (env.today ≠ st.current_day →
          st'.motion_count_today =
            (if out.motion = true ∧ st.motion_burst_remaining = 0 then 1 else 0))
      ∧ (env.today = st.current_day →
          st'.motion_count_today = st.motion_count_today +
            (if out.motion = true ∧ st.motion_burst_remaining = 0 then 1 else 0)) := by
  cases hc : env.capture with
  | none =>
    obtain ⟨_, hmf, _, _, _, _, _, hday, hcount, _⟩ :=
      step_none_parts env st st' out hok hc
    refine ⟨hday, ?_, ?_⟩
    · intro hne
      rw [hcount, if_pos hne, hmf]
      simp
    · intro heq
      rw [hcount, hmf]
      simp [heq]
  | some frame =>
    obtain ⟨htag, hmot, hprev, hfp, hday, hcount, _⟩ :=
      step_some_parts env st st' out frame hok hc
    have hcond : (out.motion = true ∧ st.motion_burst_remaining = 0)
        ↔ stepTriggered st frame = true := by
      unfold stepTriggered
      rw [hmot]
      constructor
      · rintro ⟨h1, h2⟩
        simp [h1, h2]
      · intro h
        simp only [Bool.and_eq_true, Bool.not_eq_true'] at h
        obtain ⟨h1, h2⟩ := h
        refine ⟨h1, ?_⟩
        have h3 := of_decide_eq_false h2
        omega
    refine ⟨hday, ?_, ?_⟩
    · intro hne
      rw [hcount]
      unfold stepCount
      by_cases ht : stepTriggered st frame = true
      · rw [if_pos ht, if_pos hne, if_pos (hcond.mpr ht)]
      · rw [if_neg ht, if_pos hne, if_neg (fun hcc => ht (hcond.mp hcc))]
    · intro heq
      rw [hcount]
      unfold stepCount
      by_cases ht : stepTriggered st frame = true
      · rw [if_pos ht, if_neg (fun hcc => hcc heq), if_pos (hcond.mpr ht)]
      · rw [if_neg ht, if_neg (fun hcc => hcc heq), if_neg (fun hcc => ht (hcond.mp hcc))]
        simp


theorem step_tag_eq (env : Env) (st st' : LoopState) (out : Output)
    (hok : step env st = .ok (st', out)) :
    out.motion_tag = decide (0 < st.motion_burst_remaining) := by
  cases hc : env.capture with
  | none =>
    obtain ⟨_, _, _, _, _, _, _, _, _, _, _, htag⟩ :=
      step_none_parts env st st' out hok hc
    exact htag
  | some frame => exact (step_some_parts env st st' out frame hok hc).1

theorem upload_block_char (env : Env) (c : Nat) (p : Photo) (d : List Photo)
    (u : Bool) (ur : Option UploadResult) (d2 : List Photo)
    (he : env.settings.upload_enabled = true)
    (hub : upload_block env c p d = .ok (u, ur, d2)) :
    ur = some (upload_photo env.upload c)
      ∧ u = (upload_photo env.upload c).success
      ∧ (u = true → d2 = d.filter (fun q => q ≠ p))
      ∧ (u = false → d2 = d) := by
  unfold upload_block at hub
  simp only [he, if_true] at hub
  split at hub
  next hsucc =>
    split at hub
    next hrok =>
      simp only [Except.ok.injEq, Prod.mk.injEq] at hub
      obtain ⟨h1, h2, h3⟩ := hub
      subst h1; subst h2; subst h3
      exact ⟨rfl, hsucc.symm, fun _ => rfl, fun hfalse => Bool.noConfusion hfalse⟩
    next hrok => simp at hub
  next hsucc =>
    simp only [Except.ok.injEq, Prod.mk.injEq] at hub
    obtain ⟨h1, h2, h3⟩ := hub
    subst h1; subst h2; subst h3
    simp only [Bool.not_eq_true] at hsucc
    exact ⟨rfl, hsucc.symm, fun htrue => Bool.noConfusion htrue, fun _ => rfl⟩

/-- Settings snapshot used by the concrete executions below. -/
def trSettings : Settings :=
  { capture_interval := 120, resolution_width := 1920, resolution_height := 1080,
    jpeg_quality := 85, upload_enabled := false, upload_path := "/mnt/birdhouse-cloud",
    max_local_photos := 100 }

/-- Telemetry environment in which every external query raises. -/
def noneStats : StatsEnv :=
  { timestamp := "ts", temp_out := none, uptime_out := none, df_out := none,
    iwconfig_out := none }

/-- Upload environment with the destination mount absent. -/
def trUpload : UploadEnv :=
  { dest_present := false, copy_ok := false, stats_write_ok := false,
    statsEnv := noneStats }

/-- Environments of a concrete run: the first frame is blank, every later
frame is uniformly bright, so motion is reported exactly once, on the
second iteration.  Upload is disabled and nothing fails. -/
def trEnv (n : Nat) : Env :=
  { settings_ok := true, settings := trSettings, today := 0,
    capture := some (if n = 0 then [0] else [100]),
    timestamp := Nat.repr n, mtime := n, upload := trUpload,
    remove_ok := fun _ => true }

/-- Fresh start: empty photos directory. -/
def trInit : LoopState := initState 0 []

/-- The first seventeen iterations of the concrete run. -/
def trEnvList : List Env := (List.range 17).map trEnv

/-- Per-iteration motion flags of a finite run. -/
def obsMotions (r : Except Err (LoopState × List Output)) : Option (List Bool) :=
  match r with
  | .ok (_, outs) => some (outs.map Output.motion)
  | .error _ => none

/-- Per-iteration motion tags of a finite run. -/
def obsTags (r : Except Err (LoopState × List Output)) : Option (List Bool) :=
  match r with
  | .ok (_, outs) => some (outs.map Output.motion_tag)
  | .error _ => none

/-- Per-iteration sleep intervals of a finite run. -/
def obsIntervals (r : Except Err (LoopState × List Output)) : Option (List Nat) :=
  match r with
  | .ok (_, outs) => some (outs.map Output.interval)
  | .error _ => none

/-- State component of a single iteration result. -/
def stepSt (r : Except Err (LoopState × Output)) : Option LoopState :=
  match r with
  | .ok (st, _) => some st
  | .error _ => none

/-- Output component of a single iteration result. -/
def stepOut (r : Except Err (LoopState × Output)) : Option Output :=
  match r with
  | .ok (_, out) => some out
  | .error _ => none

/-- Environments of the run shifted past the seeding iteration: iteration 0
here is the burst-triggering iteration. -/
def wEnvs (n : Nat) : Env := trEnv (n + 1)

/-- Loop state right after the seeding iteration of the concrete run. -/
def wSt0 : LoopState :=
  { motion_burst_remaining := 0, motion_count_today := 0, current_day := 0,
    prev_frame := some [0], photos := [⟨"bird_0.jpg", 0⟩] }

/-- Loop state after the burst-triggering iteration. -/
def wSt1 : LoopState :=
  { motion_burst_remaining := 14, motion_count_today := 1, current_day := 0,
    prev_frame := some [100], photos := [⟨"bird_0.jpg", 0⟩, ⟨"bird_1.jpg", 1⟩] }

/-- Output of the burst-triggering iteration. -/
def wOut1 : Output :=
  { interval := 10, motion_tag := false, filepath := some "bird_1.jpg",
    motion := true, uploaded := false, upload_result := none, deleted := [],
    after_upload_photos := [⟨"bird_0.jpg", 0⟩, ⟨"bird_1.jpg", 1⟩] }

/-- Directory holding four photos with distinct modification times. -/
def c3St : LoopState :=
  { motion_burst_remaining := 0, motion_count_today := 0, current_day := 0,
    prev_frame := some [0],
    photos := [⟨"a.jpg", 1⟩, ⟨"b.jpg", 2⟩, ⟨"c.jpg", 3⟩, ⟨"d.jpg", 4⟩] }

/-- Iteration whose capture fails while only three photos are allowed. -/
def c3Env : Env :=
  { settings_ok := true,
    settings := { trSettings with max_local_photos := 3 },
    today := 0, capture := none, timestamp := "x", mtime := 9,
    upload := trUpload, remove_ok := fun _ => true }

/-- Iteration whose capture succeeds while only three photos are allowed. -/
def c3wEnv : Env :=
  { settings_ok := true,
    settings := { trSettings with max_local_photos := 3 },
    today := 0, capture := some [0], timestamp := "w3", mtime := 5,
    upload := trUpload, remove_ok := fun _ => true }

/-- Post-state of the successful retention pass over `c3St`. -/
def c3wSt' : LoopState :=
  { motion_burst_remaining := 0, motion_count_today := 0, current_day := 0,
    prev_frame := some [0],
    photos := [⟨"c.jpg", 3⟩, ⟨"d.jpg", 4⟩, ⟨"bird_w3.jpg", 5⟩] }

/-- Output of the successful retention pass over `c3St`. -/
def c3wOut : Output :=
  { interval := 120, motion_tag := false, filepath := some "bird_w3.jpg",
    motion := false, uploaded := false, upload_result := none,
    deleted := [⟨"a.jpg", 1⟩, ⟨"b.jpg", 2⟩],
    after_upload_photos :=
      [⟨"a.jpg", 1⟩, ⟨"b.jpg", 2⟩, ⟨"c.jpg", 3⟩, ⟨"d.jpg", 4⟩, ⟨"bird_w3.jpg", 5⟩] }

/-- Iteration in which the upload succeeds but the local os.remove raises. -/
def c4RemEnv : Env :=
  { settings_ok := true,
    settings := { trSettings with upload_enabled := true },
    today := 0, capture := some [0], timestamp := "r", mtime := 1,
    upload := { dest_present := true, copy_ok := true, stats_write_ok := true,
                statsEnv := noneStats },
    remove_ok := fun _ => false }

/-- Directory with two old photos for the failing retention pass. -/
def c4RetSt : LoopState :=
  { motion_burst_remaining := 0, motion_count_today := 0, current_day := 0,
    prev_frame := some [0], photos := [⟨"old.jpg", 1⟩, ⟨"old2.jpg", 2⟩] }

/-- Iteration in which the retention os.remove raises. -/
def c4RetEnv : Env :=
  { settings_ok := true,
    settings := { trSettings with max_local_photos := 1 },
    today := 0, capture := some [0], timestamp := "q", mtime := 3,
    upload := trUpload, remove_ok := fun _ => false }

/-- Upload attempt against an absent destination directory. -/
def w5Env : Env :=
  { settings_ok := true,
    settings := { trSettings with upload_enabled := true },
    today := 0, capture := some [0], timestamp := "w5", mtime := 1,
    upload := { dest_present := false, copy_ok := true, stats_write_ok := true,
                statsEnv := noneStats },
    remove_ok := fun _ => true }

/-- Post-state of the failed upload attempt from `trInit`. -/
def w5St' : LoopState :=
  { motion_burst_remaining := 0, motion_count_today := 0, current_day := 0,
    prev_frame := some [0], photos := [⟨"bird_w5.jpg", 1⟩] }

/-- Output of the failed upload attempt from `trInit`. -/
def w5Out : Output :=
  { interval := 120, motion_tag := false, filepath := some "bird_w5.jpg",
    motion := false, uploaded := false,
    upload_result := some { success := false, photoCopied := false, statsWritten := none },
    deleted := [], after_upload_photos := [⟨"bird_w5.jpg", 1⟩] }

/-- Telemetry environment in which `df` succeeds but emits a single line. -/
def c6Env : StatsEnv :=
  { timestamp := "t6", temp_out := none, uptime_out := none,
    df_out := some "x", iwconfig_out := none }

/-- Iteration crossing a date boundary with a failing capture. -/
def c7Env : Env :=
  { settings_ok := true, settings := trSettings, today := 1, capture := none,
    timestamp := "w7", mtime := 0, upload := trUpload, remove_ok := fun _ => true }

/-- State carrying seven motion events from the previous day. -/
def c7St : LoopState :=
  { motion_burst_remaining := 0, motion_count_today := 7, current_day := 0,
    prev_frame := none, photos := [] }

/-- Post-state of the date-rollover iteration. -/
def c7St' : LoopState :=
  { motion_burst_remaining := 0, motion_count_today := 0, current_day := 1,
    prev_frame := none, photos := [] }

/-- Output of the date-rollover iteration. -/
def c7Out : Output :=
  { interval := 120, motion_tag := false, filepath := none, motion := false,
    uploaded := false, upload_result := none, deleted := [],
    after_upload_photos := [] }

/-- Mid-burst state with five captures remaining. -/
def c9St : LoopState :=
  { motion_burst_remaining := 5, motion_count_today := 2, current_day := 0,
    prev_frame := none, photos := [] }

/-- Mid-burst iteration whose capture fails. -/
def c9Env : Env :=
  { settings_ok := true, settings := trSettings, today := 0, capture := none,
    timestamp := "w9", mtime := 0, upload := trUpload, remove_ok := fun _ => true }

/-- Post-state of the failed mid-burst capture. -/
def c9St' : LoopState :=
  { motion_burst_remaining := 4, motion_count_today := 2, current_day := 0,
    prev_frame := none, photos := [] }

/-- Output of the failed mid-burst capture. -/
def c9Out : Output :=
  { interval := 10, motion_tag := true, filepath := none, motion := false,
    uploaded := false, upload_result := none, deleted := [],
    after_upload_photos := [] }

/-- Upload attempt in which the copy lands but the stats write raises. -/
def w10Env : Env :=
  { settings_ok := true,
    settings := { trSettings with upload_enabled := true },
    today := 0, capture := some [0], timestamp := "wA", mtime := 1,
    upload := { dest_present := true, copy_ok := true, stats_write_ok := false,
                statsEnv := noneStats },
    remove_ok := fun _ => true }

/-- Post-state of the copy-landed, stats-failed upload from `trInit`. -/
def w10St' : LoopState :=
  { motion_burst_remaining := 0, motion_count_today := 0, current_day := 0,
    prev_frame := some [0], photos := [⟨"bird_wA.jpg", 1⟩] }

/-- Output of the copy-landed, stats-failed upload from `trInit`. -/
def w10Out : Output :=
  { interval := 120, motion_tag := false, filepath := some "bird_wA.jpg",
    motion := false, uploaded := false,
    upload_result := some { success := false, photoCopied := true, statsWritten := none },
    deleted := [], after_upload_photos := [⟨"bird_wA.jpg", 1⟩] }

deriving instance DecidableEq for Except

/-- C8: for every input frame, the first call to the Frame Differencer after
process start (no previous frame retained) returns no motion regardless of
the frame's content and stores that frame as the retained previous-frame
buffer, performing no comparison. -/
theorem C8_first_frame_no_motion (frame : Frame) :
    detect_motion none frame = (false, some frame) := rfl

/-- C9: while the Scheduler is in BURST state the burst-remaining counter
decrements on every loop iteration regardless of whether the capture
succeeded; a failed capture consumes a burst slot and produces no photo
file, so a burst can produce fewer than the fixed number of motion-tagged
photos. -/
theorem C9_burst_decrements_regardless_of_capture (env : Env) (st st' : LoopState)
    (out : Output) (k : Nat) (hok : step env st = .ok (st', out))
    (hb : st.motion_burst_remaining = k + 1) :
    st'.motion_burst_remaining = k ∧ out.interval = MOTION_BURST_INTERVAL
      ∧ out.motion_tag = true
      ∧ (env.capture = none → out.filepath = none) := by
  have hpos : 0 < st.motion_burst_remaining := by omega
  obtain ⟨h1, h2, h3⟩ := step_burst_decrement env st st' out hok hpos
  refine ⟨by omega, h3, h2, ?_⟩
  intro hc
  exact (step_none_parts env st st' out hok hc).2.2.1

/-- Witness for C9: a concrete mid-burst iteration with a failed capture. -/
theorem C9_witness :
    c9St'.motion_burst_remaining = 4 ∧ c9Out.interval = MOTION_BURST_INTERVAL
      ∧ c9Out.motion_tag = true ∧ (c9Env.capture = none → c9Out.filepath = none) :=
  C9_burst_decrements_regardless_of_capture c9Env c9St c9St' c9Out 4
    (by decide) (by decide)

/-- C7: the daily motion counter resets to zero exactly once, at the top of
the first iteration whose local date differs from the previous iteration's,
before that iteration's capture (so the new count is built on zero); when
the date has not changed the counter is never reset. -/
theorem C7_daily_reset (env : Env) (st st' : LoopState) (out : Output)
    (hok : step env st = .ok (st', out)) :
    st'.current_day = env.today
      ∧ (env.today ≠ st.current_day →
          st'.motion_count_today =
            (if out.motion = true ∧ st.motion_burst_remaining = 0 then 1 else 0))
      ∧ (env.today = st.current_day →
          st'.motion_count_today = st.motion_count_today +
            (if out.motion = true ∧ st.motion_burst_remaining = 0 then 1 else 0)) :=
  step_day_counter env st st' out hok

/-- Witness for C7: a concrete date-rollover iteration. -/
theorem C7_witness :
    c7St'.current_day = c7Env.today
      ∧ (c7Env.today ≠ c7St.current_day →
          c7St'.motion_count_today =
            (if c7Out.motion = true ∧ c7St.motion_burst_remaining = 0 then 1 else 0))
      ∧ (c7Env.today = c7St.current_day →
          c7St'.motion_count_today = c7St.motion_count_today +
            (if c7Out.motion = true ∧ c7St.motion_burst_remaining = 0 then 1 else 0)) :=
  C7_daily_reset c7Env c7St c7St' c7Out (by decide)

set_option maxRecDepth 8000 in
/-- C2 as stated is false: on the burst-triggering iteration of a concrete
run the sleep interval is the burst interval (10 s), not the configured
normal interval (120 s). -/
theorem C2_counterexample :
    (stepSt (iterStep trEnv trInit 0)).map LoopState.motion_burst_remaining = some 0
      ∧ (stepOut (iterStep trEnv trInit 1)).map Output.motion = some true
      ∧ (stepOut (iterStep trEnv trInit 1)).map Output.interval = some MOTION_BURST_INTERVAL
      ∧ (trEnv 1).settings.capture_interval = 120
      ∧ MOTION_BURST_INTERVAL = 10 := by decide

/-- C2 (amended): on the iteration in which motion is first detected in
NORMAL state, the sleep interval used at the end of that same iteration is
already the fixed burst interval and one burst slot is consumed (the
remaining count drops to N-1); the capture of that iteration is not
motion-tagged. -/
theorem C2_trigger_uses_burst_interval (env : Env) (st st' : LoopState)
    (out : Output) (hok : step env st = .ok (st', out))
    (hb : st.motion_burst_remaining = 0) (hm : out.motion = true) :
    out.interval = MOTION_BURST_INTERVAL ∧ out.motion_tag = false
      ∧ st'.motion_burst_remaining = MOTION_BURST_COUNT - 1 := by
  obtain ⟨h1, h2, h3, _⟩ := step_trigger_parts env st st' out hok hb hm
  exact ⟨h2, h3, h1⟩

/-- Witness for C2 (amended): the concrete burst-triggering iteration. -/
theorem C2_witness :
    wOut1.interval = MOTION_BURST_INTERVAL ∧ wOut1.motion_tag = false
      ∧ wSt1.motion_burst_remaining = MOTION_BURST_COUNT - 1 :=
  C2_trigger_uses_burst_interval (wEnvs 0) wSt0 wSt1 wOut1
    (by decide) (by decide) (by decide)

/-- C6 as stated is false: when `df` succeeds but returns fewer than two
lines of output, the disk_free and disk_pct keys are never inserted into
the snapshot, rather than holding a placeholder. -/
theorem C6_counterexample :
    (gather_pi_stats c6Env 0).disk_free = none
      ∧ (gather_pi_stats c6Env 0).disk_pct = none
      ∧ c6Env.df_out.isSome = true := by decide

/-- C6 (amended): gather_pi_stats always returns a snapshot whose cpu_temp,
uptime and wifi_signal fields are present (queried value or placeholder),
and the failure of any single query affects only its own field; the
disk_free/disk_pct fields are present (value or placeholder) in every case
except when `df` succeeds with fewer than two output lines, in which case
both are absent. -/
theorem C6_stats_fields (env : StatsEnv) (motion_today : Nat) :
    (gather_pi_stats env motion_today).cpu_temp.isSome = true
      ∧ (gather_pi_stats env motion_today).uptime.isSome = true
      ∧ (gather_pi_stats env motion_today).wifi_signal.isSome = true
      ∧ (gather_pi_stats env motion_today).timestamp = env.timestamp
      ∧ (gather_pi_stats env motion_today).motion_events_today = motion_today
      ∧ (env.df_out = none →
          (gather_pi_stats env motion_today).disk_free = some "N/A"
            ∧ (gather_pi_stats env motion_today).disk_pct = some "N/A")
      ∧ (∀ out, env.df_out = some out →
          2 ≤ (pySplitSub "\n" (pyStrip out)).length →
          (gather_pi_stats env motion_today).disk_free.isSome = true
            ∧ (gather_pi_stats env motion_today).disk_pct.isSome = true)
      ∧ (∀ out, env.df_out = some out →
          (pySplitSub "\n" (pyStrip out)).length < 2 →
          (gather_pi_stats env motion_today).disk_free = none
            ∧ (gather_pi_stats env motion_today).disk_pct = none) := by
  refine ⟨?_, ?_, ?_, rfl, rfl, ?_, ?_, ?_⟩
  · rcases h : env.temp_out with _ | s
    · simp [gather_pi_stats, h]
    · rcases h2 : pyToInt s with _ | t <;> simp [gather_pi_stats, h, h2]
  · rcases h : env.uptime_out with _ | s <;> simp [gather_pi_stats, h]
  · rcases h : env.iwconfig_out with _ | out
    · simp [gather_pi_stats, h]
    · rcases h2 : (pySplitSub "\n" out).find? (fun l => containsSub l "Signal level")
        with _ | l <;> simp [gather_pi_stats, h, h2]
  · intro h
    simp [gather_pi_stats, h]
  · intro out h hlen
    simp only [gather_pi_stats, h]
    rw [if_pos hlen]
    rcases hps : pySplit ((pySplitSub "\n" (pyStrip out)).getD 1 "") with _ | ⟨p0, ps⟩
    · simp
    · rcases ps with _ | ⟨p1, ps2⟩ <;> simp
  · intro out h hlt
    have hn : ¬ (2 ≤ (pySplitSub "\n" (pyStrip out)).length) := by omega
    simp [gather_pi_stats, h, hn]

/-- Witness for C6 (amended): all queries raising yields placeholders. -/
theorem C6_witness :
    (gather_pi_stats noneStats 3).disk_free = some "N/A"
      ∧ (gather_pi_stats noneStats 3).disk_pct = some "N/A" :=
  (C6_stats_fields noneStats 3).2.2.2.2.2.1 rfl

/-- C3 as stated is false: when the capture fails, the retention pass is
skipped entirely (it sits inside the capture-success branch), so a
completed iteration can leave more local photos than the configured
maximum. -/
theorem C3_counterexample :
    (stepSt (step c3Env c3St)).map
        (fun st => (st.photos.filter (fun p => pyEndsWith p.name ".jpg")).length)
      = some 4
      ∧ c3Env.settings.max_local_photos = 3
      ∧ c3Env.capture = none := by decide

/-- C3 (amended): after every completed loop iteration whose capture
succeeded, the number of local photo files is at most the configured
max_local_photos, and the files deleted by retention pruning are always the
oldest ones by modification time; when the capture fails, the retention
pass is skipped for that iteration. -/
theorem C3_retention_bound (env : Env) (st st' : LoopState) (out : Output)
    (frame : Frame) (hok : step env st = .ok (st', out))
    (hc : env.capture = some frame) :
    (st'.photos.filter (fun p => pyEndsWith p.name ".jpg")).length
        ≤ env.settings.max_local_photos
      ∧ (∀ d ∈ out.deleted, ∀ q ∈ st'.photos,
          pyEndsWith q.name ".jpg" = true → d.mtime ≤ q.mtime) := by
  have hcl := (step_some_parts env st st' out frame hok hc).2.2.2.2.2.2.2.2.2
  exact ⟨cleanup_old_photos_count env.remove_ok env.settings.max_local_photos
      out.after_upload_photos out.deleted st'.photos hcl,
    cleanup_old_photos_oldest env.remove_ok env.settings.max_local_photos
      out.after_upload_photos out.deleted st'.photos hcl⟩

/-- Witness for C3 (amended): four pre-existing photos plus a new capture
against a maximum of three; the two oldest are pruned. -/
theorem C3_witness :
    (c3wSt'.photos.filter (fun p => pyEndsWith p.name ".jpg")).length
        ≤ c3wEnv.settings.max_local_photos
      ∧ (∀ d ∈ c3wOut.deleted, ∀ q ∈ c3wSt'.photos,
          pyEndsWith q.name ".jpg" = true → d.mtime ≤ q.mtime) :=
  C3_retention_bound c3wEnv c3St c3wSt' c3wOut [0] (by decide) (by decide)

/-- C5: for every photo and upload attempt with upload enabled: an absent
destination or failed copy makes upload_photo return failure with nothing
written remotely and the local file still present after the upload step;
a successful upload copies the photo, writes a fresh telemetry snapshot
carrying the current motion count, and deletes the local copy. -/
theorem C5_upload_outcomes (env : Env) (st st' : LoopState) (out : Output)
    (frame : Frame) (hok : step env st = .ok (st', out))
    (hup : env.settings.upload_enabled = true)
    (hc : env.capture = some frame) :
    ∃ res : UploadResult, out.upload_result = some res
      ∧ (env.upload.dest_present = false →
          res.success = false ∧ res.photoCopied = false ∧ res.statsWritten = none)
      ∧ (env.upload.copy_ok = false →
          res.success = false ∧ res.photoCopied = false ∧ res.statsWritten = none)
      ∧ (res.success = false → out.uploaded = false
          ∧ Photo.mk (photoName st env) env.mtime ∈ out.after_upload_photos)
      ∧ (res.success = true → res.photoCopied = true
          ∧ res.statsWritten =
              some (gather_pi_stats env.upload.statsEnv st'.motion_count_today)
          ∧ out.uploaded = true
          ∧ Photo.mk (photoName st env) env.mtime ∉ st'.photos) := by
  obtain ⟨_, _, _, _, _, hcount, _, _, hub, hcl⟩ :=
    step_some_parts env st st' out frame hok hc
  obtain ⟨hur, hu, hdt, hdf⟩ := upload_block_char env (stepCount env st frame)
    (Photo.mk (photoName st env) env.mtime)
    (st.photos ++ [Photo.mk (photoName st env) env.mtime])
    out.uploaded out.upload_result out.after_upload_photos hup hub
  refine ⟨upload_photo env.upload (stepCount env st frame), hur, ?_, ?_, ?_, ?_⟩
  · intro hdp
    unfold upload_photo
    simp [hdp]
  · intro hcp
    unfold upload_photo
    rcases hdp : env.upload.dest_present <;> simp [hdp, hcp]
  · intro hfail
    have huf : out.uploaded = false := by rw [hu, hfail]
    refine ⟨huf, ?_⟩
    rw [hdf huf]
    exact List.mem_append_right _ (List.mem_singleton_self _)
  · intro hsucc
    have hut : out.uploaded = true := by rw [hu, hsucc]
    have hphotos := hdt hut
    refine ⟨?_, ?_, hut, ?_⟩
    · unfold upload_photo at hsucc ⊢
      rcases hdp : env.upload.dest_present <;>
        rcases hcp : env.upload.copy_ok <;>
          rcases hsw : env.upload.stats_write_ok <;>
            simp [hdp, hcp, hsw] at hsucc ⊢
    · unfold upload_photo at hsucc ⊢
      rcases hdp : env.upload.dest_present <;>
        rcases hcp : env.upload.copy_ok <;>
          rcases hsw : env.upload.stats_write_ok <;>
            simp [hdp, hcp, hsw] at hsucc ⊢
      rw [hcount]
    · intro hmem
      have hmem2 := cleanup_old_photos_subset env.remove_ok
        env.settings.max_local_photos out.after_upload_photos out.deleted
        st'.photos hcl _ hmem
      rw [hphotos] at hmem2
      have := (List.mem_filter.mp hmem2).2
      simp at this

/-- Witness for C5: a concrete upload attempt against an absent
destination directory keeps the local file. -/
theorem C5_witness :
    ∃ res : UploadResult, w5Out.upload_result = some res
      ∧ (w5Env.upload.dest_present = false →
          res.success = false ∧ res.photoCopied = false ∧ res.statsWritten = none)
      ∧ (w5Env.upload.copy_ok = false →
          res.success = false ∧ res.photoCopied = false ∧ res.statsWritten = none)
      ∧ (res.success = false → w5Out.uploaded = false
          ∧ Photo.mk (photoName trInit w5Env) w5Env.mtime ∈ w5Out.after_upload_photos)
      ∧ (res.success = true → res.photoCopied = true
          ∧ res.statsWritten =
              some (gather_pi_stats w5Env.upload.statsEnv w5St'.motion_count_today)
          ∧ w5Out.uploaded = true
          ∧ Photo.mk (photoName trInit w5Env) w5Env.mtime ∉ w5St'.photos) :=
  C5_upload_outcomes w5Env trInit w5St' w5Out [0] (by decide) (by decide) (by decide)

/-- C10: when the photo copy to the destination succeeds but the telemetry
write fails, upload_photo returns failure, so the local photo is kept even
though a copy already exists at the destination: the upload step is not
atomic. -/
theorem C10_nonatomic_upload (env : Env) (st st' : LoopState) (out : Output)
    (frame : Frame) (hok : step env st = .ok (st', out))
    (hup : env.settings.upload_enabled = true)
    (hc : env.capture = some frame)
    (hdest : env.upload.dest_present = true)
    (hcopy : env.upload.copy_ok = true)
    (hstats : env.upload.stats_write_ok = false) :
    out.uploaded = false
      ∧ out.upload_result =
          some { success := false, photoCopied := true, statsWritten := none }
      ∧ Photo.mk (photoName st env) env.mtime ∈ out.after_upload_photos := by
  obtain ⟨_, _, _, _, _, _, _, _, hub, _⟩ :=
    step_some_parts env st st' out frame hok hc
  obtain ⟨hur, hu, _, hdf⟩ := upload_block_char env (stepCount env st frame)
    (Photo.mk (photoName st env) env.mtime)
    (st.photos ++ [Photo.mk (photoName st env) env.mtime])
    out.uploaded out.upload_result out.after_upload_photos hup hub
  have hres : upload_photo env.upload (stepCount env st frame) =
      { success := false, photoCopied := true, statsWritten := none } := by
    unfold upload_photo
    simp [hdest, hcopy, hstats]
  have huf : out.uploaded = false := by rw [hu, hres]
  refine ⟨huf, by rw [hur, hres], ?_⟩
  rw [hdf huf]
  exact List.mem_append_right _ (List.mem_singleton_self _)

/-- Witness for C10: a concrete iteration whose copy lands but whose stats
write raises. -/
theorem C10_witness :
    w10Out.uploaded = false
      ∧ w10Out.upload_result =
          some { success := false, photoCopied := true, statsWritten := none }
      ∧ Photo.mk (photoName trInit w10Env) w10Env.mtime ∈ w10Out.after_upload_photos :=
  C10_nonatomic_upload w10Env trInit w10St' w10Out [0] (by decide) (by decide)
    (by decide) (by decide) (by decide) (by decide)

/-- C4 as stated is false: a failing os.remove inside the retention pass
raises out of the loop body (there is no try/except in `run`), terminating
the loop. -/
theorem C4_counterexample :
    step c4RetEnv c4RetSt = .error Err.retentionError := by decide

/-- C4 (amended): capture failures or timeouts, a missing upload
destination, upload copy failures and telemetry-query failures never
escape the loop body; but a failing settings read, a failing post-upload
local delete, or a failing retention delete raises out of the loop body
and terminates the loop. -/
theorem C4_error_containment :
    (∀ (env : Env) (st : LoopState), env.settings_ok = true →
        (∀ n, env.remove_ok n = true) → (step env st).isOk = true)
      ∧ (∀ (env : Env) (st : LoopState), env.settings_ok = false →
          step env st = .error .settingsError)
      ∧ step c4RemEnv trInit = .error Err.removeError
      ∧ step c4RetEnv c4RetSt = .error Err.retentionError := by
  refine ⟨?_, ?_, by decide, by decide⟩
  · intro env st hs hr
    exact step_isOk env st hs hr
  · intro env st hs
    exact step_settings_fail env st hs

/-- Witness for C4 (amended): a concrete iteration in which the capture
fails, the upload destination is absent and every telemetry query raises,
yet the loop body completes normally. -/
theorem C4_witness :
    (step c3Env c3St).isOk = true :=
  C4_error_containment.1 c3Env c3St rfl (fun _ => rfl)

set_option maxRecDepth 8000 in
/-- C1 as stated is false: in a concrete run where motion is reported
exactly once (iteration 1, in NORMAL state) and never again, the
triggering iteration itself already sleeps the burst interval, and only 14
subsequent iterations are motion-tagged with the burst interval — the 15th
subsequent iteration (iteration 16) is untagged and sleeps the normal
interval. -/
theorem C1_counterexample :
    obsMotions (runList trInit trEnvList) =
        some ([false, true] ++ List.replicate 15 false)
      ∧ obsTags (runList trInit trEnvList) =
        some ([false, false] ++ List.replicate 14 true ++ [false])
      ∧ obsIntervals (runList trInit trEnvList) =
        some ([120] ++ List.replicate 15 10 ++ [120])
      ∧ trSettings.capture_interval = 120
      ∧ MOTION_BURST_COUNT = 15 := by decide

/-- C1 (amended): after the Frame Differencer reports motion while the
Scheduler is in NORMAL state, the triggering iteration itself already
sleeps the burst interval and consumes one burst slot; exactly N-1
subsequent iterations (N = MOTION_BURST_COUNT) take a motion-tagged
capture and sleep the burst interval — regardless of any further motion
reports during them — after which the Scheduler is back in NORMAL state
and, when no motion is reported on that next iteration, sleeps the
operator-configured normal interval. -/
theorem C1_burst_length (envs : Nat → Env) (st0 st1 : LoopState) (out1 : Output)
    (hb : st0.motion_burst_remaining = 0)
    (h0 : iterStep envs st0 0 = .ok (st1, out1))
    (hm : out1.motion = true) :
    (st1.motion_burst_remaining = MOTION_BURST_COUNT - 1
      ∧ out1.interval = MOTION_BURST_INTERVAL ∧ out1.motion_tag = false)
      ∧ (∀ i sti outi, 1 ≤ i → i ≤ MOTION_BURST_COUNT - 1 →
          iterStep envs st0 i = .ok (sti, outi) →
          outi.motion_tag = true ∧ outi.interval = MOTION_BURST_INTERVAL
            ∧ sti.motion_burst_remaining = MOTION_BURST_COUNT - 1 - i)
      ∧ (∀ stN outN, iterStep envs st0 MOTION_BURST_COUNT = .ok (stN, outN) →
          outN.motion_tag = false
            ∧ (outN.motion = false →
                outN.interval = (envs MOTION_BURST_COUNT).settings.capture_interval
                  ∧ stN.motion_burst_remaining = 0)) := by
  have hMB : MOTION_BURST_COUNT = 15 := rfl
  have htr := step_trigger_parts (envs 0) st0 st1 out1 h0 hb hm
  have key : ∀ i, i ≤ MOTION_BURST_COUNT - 1 → ∀ sti outi,
      iterStep envs st0 i = .ok (sti, outi) →
      sti.motion_burst_remaining = MOTION_BURST_COUNT - 1 - i := by
    intro i
    induction i with
    | zero =>
      intro _ sti outi h
      rw [h0] at h
      simp only [Except.ok.injEq, Prod.mk.injEq] at h
      obtain ⟨h1, h2⟩ := h
      subst h1; subst h2
      rw [htr.1]
      simp
    | succ i ih =>
      intro hle sti1 outi1 h
      unfold iterStep at h
      split at h
      next stpr outpr hprev =>
        have hbv := ih (by omega) stpr outpr hprev
        have hpos : 0 < stpr.motion_burst_remaining := by
          rw [hbv]
          simp only [hMB] at hle ⊢
          omega
        obtain ⟨hdec, _, _⟩ :=
          step_burst_decrement (envs (i + 1)) stpr sti1 outi1 h hpos
        rw [hdec, hbv]
        simp only [hMB]
        simp only [hMB] at hle
        omega
      next e hprev => simp at h
  have mid : ∀ i sti outi, 1 ≤ i → i ≤ MOTION_BURST_COUNT - 1 →
      iterStep envs st0 i = .ok (sti, outi) →
      outi.motion_tag = true ∧ outi.interval = MOTION_BURST_INTERVAL
        ∧ sti.motion_burst_remaining = MOTION_BURST_COUNT - 1 - i := by
    intro i sti outi h1 h14 h
    obtain ⟨j, rfl⟩ : ∃ j, i = j + 1 := ⟨i - 1, by omega⟩
    have hbsti := key (j + 1) h14 sti outi h
    unfold iterStep at h
    split at h
    next stpr outpr hprev =>
      have hbj := key j (by omega) stpr outpr hprev
      have hpos : 0 < stpr.motion_burst_remaining := by
        rw [hbj]
        simp only [hMB] at h14 ⊢
        omega
      obtain ⟨_, htag, hint⟩ :=
        step_burst_decrement (envs (j + 1)) stpr sti outi h hpos
      exact ⟨htag, hint, hbsti⟩
    next e hprev => simp at h
  refine ⟨⟨htr.1, htr.2.1, htr.2.2.1⟩, mid, ?_⟩
  intro stN outN h
  rw [hMB, (by norm_num : (15 : Nat) = 14 + 1)] at h
  unfold iterStep at h
  split at h
  next stpr outpr hprev =>
    have hb14 : stpr.motion_burst_remaining = 0 := by
      have := key 14 (by simp [hMB]) stpr outpr hprev
      simp [hMB] at this
      exact this
    have htag : outN.motion_tag = false := by
      rw [step_tag_eq (envs (14 + 1)) stpr stN outN h, hb14]
      simp
    refine ⟨htag, ?_⟩
    intro hmot
    obtain ⟨hbz, hint, _⟩ :=
      step_normal_still (envs (14 + 1)) stpr stN outN h hb14 hmot
    exact ⟨by rw [hMB]; exact hint, hbz⟩
  next e hprev => simp at h

/-- Witness for C1 (amended): the concrete triggering iteration of the
shifted run. -/
theorem C1_witness :
    wSt1.motion_burst_remaining = MOTION_BURST_COUNT - 1
      ∧ wOut1.interval = MOTION_BURST_INTERVAL ∧ wOut1.motion_tag = false :=
  (C1_burst_length wEnvs wSt0 wSt1 wOut1 (by decide) (by decide) (by decide)).1

end Birdhouse
